import Mathlib

/-!
Verification of `lotus/python/session.py`: the `InferenceSession` façade
around an opaque native inference engine (`onnxruntime.python._pybind_state`,
bound as `C`).  The façade is embedded shallowly: Python dynamic values that
drive the dispatch become a sum type, the opaque engine becomes a record of
(possibly failing) operations, and every façade operation returns its result
together with the trace of engine operations it performed, so that claims of
the form "no engine call occurs" can be stated directly.

The native engine itself is not part of the repository source; only the
operations the façade invokes on it appear here, as opaque fields of an
`Engine` record, quantified over in every theorem.  Type parameters:
`T` = tensor values, `C` = session-options objects, `R` = run-options objects.
-/

/-- Modelled from the spec: one input/output descriptor as reported by the
native engine (`name`, `shape`, element-type tag).  The descriptor type lives
in the compiled pybind module, which is not in the source tree; only the
`name` field is touched by the façade (`output.name` in `run`). -/
structure NodeArg where
  name : String
  shape : List (Option Int)
  dtype : String
deriving DecidableEq, Repr

/-- Modelled from the spec: the model-metadata snapshot reported by the
native engine (`producer`, `graph_name`, `domain`, `description`, `version`,
custom key/value pairs).  Opaque to the façade, which only caches it. -/
structure ModelMeta where
  producer : String
  graph_name : String
  domain : String
  description : String
  version : Int
  custom_metadata : List (String × String)
deriving DecidableEq, Repr

/-- The three read-only snapshots the engine exposes immediately after a
successful load call (`inputs_meta`, `outputs_meta`, `model_meta`). -/
structure EngineMeta where
  inputs_meta : List NodeArg
  outputs_meta : List NodeArg
  model_meta : ModelMeta
deriving DecidableEq, Repr

/-- An opaque engine-signalled failure (an exception raised by the native
binding); the façade never inspects it. -/
abbrev EngineError : Type := String

/-- The Python runtime value passed as `path_or_bytes` to
`InferenceSession.__init__`.  The code dispatches with `isinstance` on
`str`, `bytes` and `tuple`; every other runtime value falls into `other`,
which records the Python type name (what `type(path_or_bytes)` prints). -/
inductive PyObject where
  | str (s : String)
  | bytes (b : List Nat)
  | tuple (elems : List PyObject)
  | other (typeName : String)

/-- `type(x)` as rendered into the `TypeError` message by the source's
`"Unable to load from type '{0}'".format(type(path_or_bytes))`. -/
def PyObject.typeName : PyObject → String
  | .str _ => "<class 'str'>"
  | .bytes _ => "<class 'bytes'>"
  | .tuple _ => "<class 'tuple'>"
  | .other t => t

/-- Whether the value is one of the three source variants the dispatch in
`__init__` recognizes (`str`, `bytes`, `tuple`); everything else reaches the
final `else` branch. -/
def PyObject.isRecognizedSource : PyObject → Bool
  | .str _ => true
  | .bytes _ => true
  | .tuple _ => true
  | .other _ => false

/-- Exceptions the façade can raise or propagate.  `inputCountMismatch`
is the `ValueError("Model requires {} inputs. Input Feed contains {}")`
of `run`, carrying the two formatted counts; `unsupportedSourceType` is the
`TypeError("Unable to load from type '{0}'")` of `__init__`, carrying the
formatted runtime type; `indexError` is the `IndexError` Python raises for
`path_or_bytes[0]` on an empty tuple; `engineError` wraps an engine
exception propagated unchanged. -/
inductive PyError where
  | inputCountMismatch (expected actual : Nat)
  | unsupportedSourceType (typeName : String)
  | indexError
  | engineError (e : EngineError)
deriving DecidableEq

/-- An argument of the native `C.InferenceSession(...)` constructor: either a
caller-supplied options object or the value of `C.get_session_initializer()`. -/
inductive EngineCtorArg (C : Type) where
  | options (c : C)
  | defaultInit
deriving DecidableEq

/-- The opaque native engine instance: a record of the operations the façade
invokes on `self._sess`.  A successful load call yields the `EngineMeta`
snapshots that the source reads right after loading. -/
structure Engine (T C R : Type) where
  load_model : String → Except EngineError EngineMeta
  read_bytes : List Nat → Except EngineError EngineMeta
  load_model_no_init : PyObject → Except EngineError EngineMeta
  run : List String → List (String × T) → Option R → Except EngineError (List T)
  end_profiling : Except EngineError String

/-- One engine operation performed by the façade, recorded in a trace. -/
inductive EngineOp (T C R : Type) where
  | mkSession (a b : EngineCtorArg C)
  | load_model (path : String)
  | read_bytes (b : List Nat)
  | load_model_no_init (tok : PyObject)
  | run (outputNames : List String) (feed : List (String × T)) (opts : Option R)
  | end_profiling

/-- Whether a traced engine operation is one of the three load operations
(`load_model`, `read_bytes`, `load_model_no_init`). -/
def EngineOp.isLoadOp {T C R : Type} : EngineOp T C R → Bool
  | .load_model _ => true
  | .read_bytes _ => true
  | .load_model_no_init _ => true
  | _ => false

/-- The load operations contained in a trace, in order. -/
def loadOps {T C R : Type} (tr : List (EngineOp T C R)) : List (EngineOp T C R) :=
  tr.filter EngineOp.isLoadOp

/-- The two arguments handed to `C.InferenceSession(...)`:
`(sess_options, C.get_session_initializer())` when `sess_options` is truthy
(a caller-supplied options object), otherwise
`(C.get_session_initializer(), C.get_session_initializer())`. -/
def ctorArgs {C : Type} (sess_options : Option C) : EngineCtorArg C × EngineCtorArg C :=
  match sess_options with
  | some o => (.options o, .defaultInit)
  | none => (.defaultInit, .defaultInit)

/-- The engine instance `self._sess` produced for the given options, where
`mk` is the native `C.InferenceSession` constructor. -/
def engineFor {T C R : Type} (mk : EngineCtorArg C → EngineCtorArg C → Engine T C R)
    (sess_options : Option C) : Engine T C R :=
  mk (ctorArgs sess_options).1 (ctorArgs sess_options).2

/-- The façade state after a successful `__init__`: the engine handle
`self._sess` together with the three cached metadata snapshots
`self._inputs_meta`, `self._outputs_meta`, `self._model_meta`. -/
structure Session (T C R : Type) where
  sess : Engine T C R
  inputs_meta : List NodeArg
  outputs_meta : List NodeArg
  model_meta : ModelMeta

/-- The result of the engine load call that `__init__` performs for a given
`path_or_bytes`, if any: `load_model` for a `str`, `read_bytes` for `bytes`,
`load_model_no_init path_or_bytes[0]` for a nonempty `tuple`; `none` when no
load operation is reached (empty tuple, unsupported type). -/
def Engine.loadResult {T C R : Type} (e : Engine T C R) :
    PyObject → Option (Except EngineError EngineMeta)
  | .str s => some (e.load_model s)
  | .bytes b => some (e.read_bytes b)
  | .tuple (t :: _) => some (e.load_model_no_init t)
  | .tuple [] => none
  | .other _ => none

/-- `InferenceSession.__init__(path_or_bytes, sess_options)`: constructs the
engine instance, dispatches on the runtime type of `path_or_bytes`, and on a
successful load caches the three metadata snapshots.  Returns the outcome
together with the trace of engine operations performed. -/
def construct {T C R : Type} (mk : EngineCtorArg C → EngineCtorArg C → Engine T C R)
    (path_or_bytes : PyObject) (sess_options : Option C) :
    Except PyError (Session T C R) × List (EngineOp T C R) :=
  let sess := engineFor mk sess_options
  let ctorTrace : List (EngineOp T C R) :=
    [.mkSession (ctorArgs sess_options).1 (ctorArgs sess_options).2]
  match path_or_bytes with
  | .str s =>
    match sess.load_model s with
    | .ok m => (.ok ⟨sess, m.inputs_meta, m.outputs_meta, m.model_meta⟩,
                ctorTrace ++ [.load_model s])
    | .error e => (.error (.engineError e), ctorTrace ++ [.load_model s])
  | .bytes b =>
    match sess.read_bytes b with
    | .ok m => (.ok ⟨sess, m.inputs_meta, m.outputs_meta, m.model_meta⟩,
                ctorTrace ++ [.read_bytes b])
    | .error e => (.error (.engineError e), ctorTrace ++ [.read_bytes b])
  | .tuple [] => (.error .indexError, ctorTrace)
  | .tuple (t :: _) =>
    match sess.load_model_no_init t with
    | .ok m => (.ok ⟨sess, m.inputs_meta, m.outputs_meta, m.model_meta⟩,
                ctorTrace ++ [.load_model_no_init t])
    | .error e => (.error (.engineError e), ctorTrace ++ [.load_model_no_init t])
  | .other t => (.error (.unsupportedSourceType (PyObject.other t).typeName), ctorTrace)

/-- `get_inputs`: returns the cached snapshot, performing no engine call. -/
def Session.get_inputs {T C R : Type} (s : Session T C R) :
    List NodeArg × List (EngineOp T C R) := (s.inputs_meta, [])

/-- `get_outputs`: returns the cached snapshot, performing no engine call. -/
def Session.get_outputs {T C R : Type} (s : Session T C R) :
    List NodeArg × List (EngineOp T C R) := (s.outputs_meta, [])

/-- `get_modelmeta`: returns the cached snapshot, performing no engine call. -/
def Session.get_modelmeta {T C R : Type} (s : Session T C R) :
    ModelMeta × List (EngineOp T C R) := (s.model_meta, [])

/-- The output-name sequence `run` hands the engine: `output_names` itself
when it is truthy, otherwise (`None` or the empty list, both falsy under
`if not output_names:`) the names of the cached output descriptors in
declared order (`[output.name for output in self._outputs_meta]`). -/
def Session.resolveOutputNames {T C R : Type} (s : Session T C R)
    (output_names : Option (List String)) : List String :=
  match output_names with
  | none => s.outputs_meta.map NodeArg.name
  | some names => if names.isEmpty then s.outputs_meta.map NodeArg.name else names

/-- `InferenceSession.run(output_names, input_feed, run_options)`: checks the
feed entry count against the cached input descriptors, resolves the output
names, and delegates to the engine.  Returns the outcome together with the
trace of engine operations performed. -/
def Session.run {T C R : Type} (s : Session T C R) (output_names : Option (List String))
    (input_feed : List (String × T)) (run_options : Option R) :
    Except PyError (List T) × List (EngineOp T C R) :=
  let num_required_inputs := s.inputs_meta.length
  let num_inputs := input_feed.length
  if num_inputs ≠ num_required_inputs then
    (.error (.inputCountMismatch num_required_inputs num_inputs), [])
  else
    let resolved := s.resolveOutputNames output_names
    match s.sess.run resolved input_feed run_options with
    | .ok res => (.ok res, [.run resolved input_feed run_options])
    | .error e => (.error (.engineError e), [.run resolved input_feed run_options])

/-- `end_profiling`: delegates to the engine and returns its result. -/
def Session.end_profiling {T C R : Type} (s : Session T C R) :
    Except PyError String × List (EngineOp T C R) :=
  match s.sess.end_profiling with
  | .ok r => (.ok r, [.end_profiling])
  | .error e => (.error (.engineError e), [.end_profiling])

/-! ### Concrete test fixtures

A tiny concrete engine (tensors, options and run-options all instantiated at
`Nat`) with one declared input `x` and two declared outputs `y`, `z`, used to
exhibit each universally quantified theorem at a concrete instance, plus an
engine whose every operation fails, for the error-propagation claims. -/

/-- Metadata of a concrete one-input, two-output model. -/
def testMeta : EngineMeta :=
  { inputs_meta := [⟨"x", [some 1], "tensor(float)"⟩],
    outputs_meta := [⟨"y", [some 1], "tensor(float)"⟩, ⟨"z", [none], "tensor(float)"⟩],
    model_meta := ⟨"producerA", "graphA", "domainA", "descA", 7, [("k", "v")]⟩ }

/-- A concrete engine on which every operation succeeds. -/
def testEngine : Engine Nat Nat Nat :=
  { load_model := fun _ => .ok testMeta,
    read_bytes := fun _ => .ok testMeta,
    load_model_no_init := fun _ => .ok testMeta,
    run := fun names _ _ => .ok (names.map fun _ => 0),
    end_profiling := .ok "prof.json" }

/-- A concrete engine on which every operation fails. -/
def failEngine : Engine Nat Nat Nat :=
  { load_model := fun _ => .error "load boom",
    read_bytes := fun _ => .error "bytes boom",
    load_model_no_init := fun _ => .error "noinit boom",
    run := fun _ _ _ => .error "run boom",
    end_profiling := .error "prof boom" }

/-- A concrete native constructor yielding `testEngine` for any arguments. -/
def testMk : EngineCtorArg Nat → EngineCtorArg Nat → Engine Nat Nat Nat :=
  fun _ _ => testEngine

/-- A concrete native constructor yielding `failEngine` for any arguments. -/
def failMk : EngineCtorArg Nat → EngineCtorArg Nat → Engine Nat Nat Nat :=
  fun _ _ => failEngine

/-- The session obtained by loading the concrete model through `testEngine`. -/
def testSession : Session Nat Nat Nat :=
  ⟨testEngine, testMeta.inputs_meta, testMeta.outputs_meta, testMeta.model_meta⟩

/-- A session whose engine handle fails every operation. -/
def failSession : Session Nat Nat Nat :=
  ⟨failEngine, testMeta.inputs_meta, testMeta.outputs_meta, testMeta.model_meta⟩

/-! ### Claim theorems -/

/-- C1: for a session whose cached input descriptors number `N`, calling
`run` with a feed whose entry count is not `N` fails with the
input-count-mismatch `ValueError` carrying the expected count `N` and the
actual feed size, and the engine trace is empty — in particular the engine's
`run` operation is never invoked. -/
theorem run_count_mismatch_no_engine_call {T C R : Type} (s : Session T C R)
    (output_names : Option (List String)) (input_feed : List (String × T))
    (run_options : Option R)
    (h : input_feed.length ≠ s.inputs_meta.length) :
    s.run output_names input_feed run_options =
      (.error (.inputCountMismatch s.inputs_meta.length input_feed.length), []) := by
  simp [Session.run, h]

/-- Witness for C1 at a concrete instance: the one-input test session,
called with an empty feed. -/
theorem run_count_mismatch_no_engine_call_witness :
    ([] : List (String × Nat)).length ≠ testSession.inputs_meta.length ∧
    testSession.run none [] none =
      (.error (.inputCountMismatch testSession.inputs_meta.length 0), []) :=
  ⟨by decide, run_count_mismatch_no_engine_call testSession none [] none (by decide)⟩

/-- C2: calling `run` with `output_names` omitted (`None`) or empty is
the same call as passing the full ordered sequence of declared output names
taken from the cached output descriptors: identical result and identical
engine trace. -/
theorem run_default_output_names {T C R : Type} (s : Session T C R)
    (input_feed : List (String × T)) (run_options : Option R) :
    s.run none input_feed run_options =
      s.run (some (s.outputs_meta.map NodeArg.name)) input_feed run_options ∧
    s.run (some []) input_feed run_options =
      s.run (some (s.outputs_meta.map NodeArg.name)) input_feed run_options := by
  constructor <;> simp [Session.run, Session.resolveOutputNames]

/-- C3: for a feed of exactly the declared size whose keys are disjoint
from the declared input names, `run` performs no local name validation: it
delegates to the engine's `run` with the resolved names, the feed unchanged
and the run options, and its outcome is the engine's outcome (errors wrapped
as propagated engine errors). -/
theorem run_count_only_no_name_check {T C R : Type} (s : Session T C R)
    (output_names : Option (List String)) (input_feed : List (String × T))
    (run_options : Option R)
    (hlen : input_feed.length = s.inputs_meta.length)
    (hnames : ∀ k ∈ input_feed.map Prod.fst, k ∉ s.inputs_meta.map NodeArg.name) :
    (s.run output_names input_feed run_options).2 =
      [.run (s.resolveOutputNames output_names) input_feed run_options] ∧
    (s.run output_names input_feed run_options).1 =
      (s.sess.run (s.resolveOutputNames output_names) input_feed run_options).mapError
        .engineError := by
  have hne : ¬ input_feed.length ≠ s.inputs_meta.length := by simp [hlen]
  cases hrun : s.sess.run (s.resolveOutputNames output_names) input_feed run_options <;>
    simp [Session.run, hne, hrun, Except.mapError]

/-- Witness for C3 at a concrete instance: the one-input test session (sole
declared input name `x`), fed a single entry under the undeclared name
`bogus`; the call reaches the engine and returns its result. -/
theorem run_count_only_no_name_check_witness :
    ([("bogus", 5)] : List (String × Nat)).length = testSession.inputs_meta.length ∧
    (∀ k ∈ ([("bogus", 5)] : List (String × Nat)).map Prod.fst,
      k ∉ testSession.inputs_meta.map NodeArg.name) ∧
    ((testSession.run none [("bogus", 5)] none).2 =
      [.run (testSession.resolveOutputNames none) [("bogus", 5)] none] ∧
    (testSession.run none [("bogus", 5)] none).1 =
      (testSession.sess.run (testSession.resolveOutputNames none)
        [("bogus", 5)] none).mapError .engineError) :=
  ⟨by decide, by decide,
    run_count_only_no_name_check testSession none [("bogus", 5)] none
      (by decide) (by decide)⟩

/-- C4: for a source value that is none of the recognized variants (`str`,
`bytes`, `tuple`), `__init__` fails with the `TypeError` identifying the
actual runtime type, and the engine trace contains no load operation
(`load_model`, `read_bytes`, `load_model_no_init` are never invoked). -/
theorem construct_unsupported_source {T C R : Type}
    (mk : EngineCtorArg C → EngineCtorArg C → Engine T C R)
    (src : PyObject) (sess_options : Option C)
    (h : src.isRecognizedSource = false) :
    (construct mk src sess_options).1 =
      .error (.unsupportedSourceType src.typeName) ∧
    loadOps (construct mk src sess_options).2 = [] := by
  cases src <;>
    simp_all [PyObject.isRecognizedSource, construct, PyObject.typeName, loadOps,
      List.filter, EngineOp.isLoadOp]

/-- Witness for C4 at a concrete instance: an `int` source value. -/
theorem construct_unsupported_source_witness :
    (PyObject.other "<class 'int'>").isRecognizedSource = false ∧
    ((construct testMk (.other "<class 'int'>") (none : Option Nat)).1 =
      .error (.unsupportedSourceType (PyObject.other "<class 'int'>").typeName) ∧
    loadOps (construct testMk (.other "<class 'int'>") (none : Option Nat)).2 = []) :=
  ⟨by decide,
    construct_unsupported_source testMk (.other "<class 'int'>") none (by decide)⟩

/-- C5: `__init__` dispatches on the runtime variant of the source: for a
`str` path the sole load operation performed on the engine is `load_model`
with that path; for a `bytes` value, `read_bytes` with those bytes; for a
`tuple` (the pre-parsed-token variant, here nonempty), `load_model_no_init`. -/
theorem construct_dispatch {T C R : Type}
    (mk : EngineCtorArg C → EngineCtorArg C → Engine T C R)
    (sess_options : Option C) :
    (∀ s : String, loadOps (construct mk (.str s) sess_options).2 = [.load_model s]) ∧
    (∀ b : List Nat, loadOps (construct mk (.bytes b) sess_options).2 = [.read_bytes b]) ∧
    (∀ t rest, loadOps (construct mk (.tuple (t :: rest)) sess_options).2 =
      [.load_model_no_init t]) := by
  refine ⟨fun s => ?_, fun b => ?_, fun t rest => ?_⟩ <;>
    · simp only [construct]
      split <;> rfl

/-- C6: after a successful `__init__`, the three cached snapshots are
exactly the ones the engine's load call reported, and each accessor returns
that cached snapshot with an empty engine trace.  (The accessors are pure
functions of the session state, which no operation of the façade mutates, so
repeated calls return the identical snapshot.) -/
theorem construct_caches_engine_meta {T C R : Type}
    (mk : EngineCtorArg C → EngineCtorArg C → Engine T C R)
    (src : PyObject) (sess_options : Option C) (s : Session T C R)
    (h : (construct mk src sess_options).1 = .ok s) :
    (∃ m : EngineMeta, (engineFor mk sess_options).loadResult src = some (.ok m) ∧
      s.inputs_meta = m.inputs_meta ∧ s.outputs_meta = m.outputs_meta ∧
      s.model_meta = m.model_meta) ∧
    s.get_inputs = (s.inputs_meta, ([] : List (EngineOp T C R))) ∧
    s.get_outputs = (s.outputs_meta, []) ∧
    s.get_modelmeta = (s.model_meta, []) := by
  refine ⟨?_, rfl, rfl, rfl⟩
  cases src with
  | str p =>
    cases hm : (engineFor mk sess_options).load_model p with
    | ok m =>
      refine ⟨m, by simp [Engine.loadResult, hm], ?_⟩
      simp [construct, hm] at h
      subst h
      exact ⟨rfl, rfl, rfl⟩
    | error e => simp [construct, hm] at h
  | bytes b =>
    cases hm : (engineFor mk sess_options).read_bytes b with
    | ok m =>
      refine ⟨m, by simp [Engine.loadResult, hm], ?_⟩
      simp [construct, hm] at h
      subst h
      exact ⟨rfl, rfl, rfl⟩
    | error e => simp [construct, hm] at h
  | tuple elems =>
    cases elems with
    | nil => simp [construct] at h
    | cons t rest =>
      cases hm : (engineFor mk sess_options).load_model_no_init t with
      | ok m =>
        refine ⟨m, by simp [Engine.loadResult, hm], ?_⟩
        simp [construct, hm] at h
        subst h
        exact ⟨rfl, rfl, rfl⟩
      | error e => simp [construct, hm] at h
  | other t => simp [construct] at h

/-- Witness for C6 at a concrete instance: loading a path through the test
engine yields exactly `testSession`, whose cached snapshots are the ones
`testEngine.load_model` reported. -/
theorem construct_caches_engine_meta_witness :
    (construct testMk (.str "model.onnx") (none : Option Nat)).1 = .ok testSession ∧
    ((∃ m : EngineMeta,
        (engineFor testMk (none : Option Nat)).loadResult (.str "model.onnx") =
          some (.ok m) ∧
        testSession.inputs_meta = m.inputs_meta ∧
        testSession.outputs_meta = m.outputs_meta ∧
        testSession.model_meta = m.model_meta) ∧
      testSession.get_inputs =
        (testSession.inputs_meta, ([] : List (EngineOp Nat Nat Nat))) ∧
      testSession.get_outputs = (testSession.outputs_meta, []) ∧
      testSession.get_modelmeta = (testSession.model_meta, [])) :=
  ⟨rfl, construct_caches_engine_meta testMk (.str "model.onnx") none testSession rfl⟩

/-- C7: for a feed of the declared size, when the engine's `run` succeeds on
the resolved output names, the feed and the run options, the façade's `run`
returns exactly that engine result, unmodified. -/
theorem run_returns_engine_result {T C R : Type} (s : Session T C R)
    (output_names : Option (List String)) (input_feed : List (String × T))
    (run_options : Option R) (res : List T)
    (hlen : input_feed.length = s.inputs_meta.length)
    (heng : s.sess.run (s.resolveOutputNames output_names) input_feed run_options =
      .ok res) :
    (s.run output_names input_feed run_options).1 = .ok res := by
  simp [Session.run, hlen, heng]

/-- Witness for C7 at a concrete instance: the test session with feed
`{x: 5}`; the engine returns one zero tensor per resolved output name. -/
theorem run_returns_engine_result_witness :
    ([("x", 5)] : List (String × Nat)).length = testSession.inputs_meta.length ∧
    testSession.sess.run (testSession.resolveOutputNames none) [("x", 5)] none =
      .ok [0, 0] ∧
    (testSession.run none [("x", 5)] none).1 = .ok [0, 0] :=
  ⟨by decide, rfl,
    run_returns_engine_result testSession none [("x", 5)] none [0, 0]
      (by decide) rfl⟩

/-- C8: every engine-signalled failure propagates to the caller unchanged,
wrapped by no translation beyond re-raising: a failing load makes `__init__`
fail with exactly that engine error, a failing engine `run` makes `run` fail
with exactly that engine error (and no result is produced), and a failing
`end_profiling` propagates likewise. -/
theorem engine_errors_propagate_unchanged {T C R : Type}
    (mk : EngineCtorArg C → EngineCtorArg C → Engine T C R)
    (src : PyObject) (sess_options : Option C)
    (s : Session T C R) (output_names : Option (List String))
    (input_feed : List (String × T)) (run_options : Option R)
    (eload erun eprof : EngineError)
    (hload : (engineFor mk sess_options).loadResult src = some (.error eload))
    (hlen : input_feed.length = s.inputs_meta.length)
    (hrun : s.sess.run (s.resolveOutputNames output_names) input_feed run_options =
      .error erun)
    (hprof : s.sess.end_profiling = .error eprof) :
    (construct mk src sess_options).1 = .error (.engineError eload) ∧
    (s.run output_names input_feed run_options).1 = .error (.engineError erun) ∧
    (s.end_profiling).1 = .error (.engineError eprof) := by
  refine ⟨?_, by simp [Session.run, hlen, hrun], by simp [Session.end_profiling, hprof]⟩
  cases src with
  | str p =>
    simp only [Engine.loadResult, Option.some.injEq] at hload
    simp [construct, hload]
  | bytes b =>
    simp only [Engine.loadResult, Option.some.injEq] at hload
    simp [construct, hload]
  | tuple elems =>
    cases elems with
    | nil => simp [Engine.loadResult] at hload
    | cons t rest =>
      simp only [Engine.loadResult, Option.some.injEq] at hload
      simp [construct, hload]
  | other t => simp [Engine.loadResult] at hload

/-- Witness for C8 at a concrete instance: the everywhere-failing engine. -/
theorem engine_errors_propagate_unchanged_witness :
    (engineFor failMk (none : Option Nat)).loadResult (.str "model.onnx") =
      some (.error "load boom") ∧
    ([("x", 5)] : List (String × Nat)).length = failSession.inputs_meta.length ∧
    failSession.sess.run (failSession.resolveOutputNames none) [("x", 5)] none =
      .error "run boom" ∧
    failSession.sess.end_profiling = .error "prof boom" ∧
    ((construct failMk (.str "model.onnx") (none : Option Nat)).1 =
      .error (.engineError "load boom") ∧
    (failSession.run none [("x", 5)] none).1 = .error (.engineError "run boom") ∧
    (failSession.end_profiling).1 = .error (.engineError "prof boom")) :=
  ⟨rfl, by decide, rfl, rfl,
    engine_errors_propagate_unchanged failMk (.str "model.onnx") none failSession
      none [("x", 5)] none "load boom" "run boom" "prof boom"
      rfl (by decide) rfl rfl⟩

/-- C9: the native engine constructor is invoked first on every `__init__`
path, with `(sess_options, C.get_session_initializer())` when an options
object is given and `(C.get_session_initializer(),
C.get_session_initializer())` when it is absent. -/
theorem construct_options_dispatch {T C R : Type}
    (mk : EngineCtorArg C → EngineCtorArg C → Engine T C R) (src : PyObject) :
    (∀ o : C, (construct mk src (some o)).2.head? =
      some (.mkSession (.options o) .defaultInit)) ∧
    ((construct mk src (none : Option C)).2.head? =
      some (.mkSession .defaultInit .defaultInit)) := by
  have key : ∀ opts : Option C, (construct mk src opts).2.head? =
      some (.mkSession (ctorArgs opts).1 (ctorArgs opts).2) := by
    intro opts
    cases src with
    | str p =>
      simp only [construct]
      split <;> rfl
    | bytes b =>
      simp only [construct]
      split <;> rfl
    | tuple elems =>
      cases elems with
      | nil => rfl
      | cons t rest =>
        simp only [construct]
        split <;> rfl
    | other t => rfl
  exact ⟨fun o => by rw [key]; rfl, by rw [key]; rfl⟩

/-- C10: a `tuple` source is treated as the pre-parsed-token variant and only
its first element is forwarded to the engine's `load_model_no_init`; an empty
tuple is not rejected as an unsupported source type — evaluating
`path_or_bytes[0]` raises `IndexError` instead. -/
theorem construct_tuple_first_element {T C R : Type}
    (mk : EngineCtorArg C → EngineCtorArg C → Engine T C R)
    (sess_options : Option C) :
    (∀ t rest, loadOps (construct mk (.tuple (t :: rest)) sess_options).2 =
      [.load_model_no_init t]) ∧
    ((construct mk (.tuple []) sess_options).1 =
      (.error .indexError : Except PyError (Session T C R))) ∧
    (∀ tn : String, (construct mk (.tuple ([] : List PyObject)) sess_options).1 ≠
      .error (.unsupportedSourceType tn)) := by
  refine ⟨fun t rest => ?_, rfl, fun tn h => ?_⟩
  · simp only [construct]
    split <;> rfl
  · simp [construct] at h
